import Mathlib

/-!
Shallow embedding of `src/main.py` of the telegram-mcp repository.

Python values are modelled as follows: machine integers and Telegram ids
are `Int` (Python ints are unbounded), Python strings are `String`,
`None`-or-string values are `Option String`, exceptions are a record
carrying their message, and each remote (Telethon) call performed by a
tool is recorded in an ordered trace next to the returned string.
`datetime` values are represented by their microsecond position on the
UTC timeline, together with the string `str(..)` would print for them
where a tool interpolates a date into its output.

Python's builtin `hash` on strings is randomized per process but fixed
within a process; it is threaded through as an explicit parameter
`h : String → Int`.
-/

/-- A Python exception; only its message is observable to this code. -/
structure PyExc where
  msg : String
deriving DecidableEq

/-- A Python value that is either `None` or a string. -/
abbrev PyVal := Option String

/-- Python truthiness of a `None`-or-string value. -/
def pyTruthy : PyVal → Bool
  | some s => !s.isEmpty
  | none => false

/-- `str(v)` for a `None`-or-string value, as used inside f-strings. -/
def pyStrOf : PyVal → String
  | some s => s
  | none => "None"

/-- An attribute slot of a duck-typed Python object: missing, `None`, or a
string.  `hasattr` sees the first case as `false` and the others as `true`. -/
inductive PyAttr
  | absent
  | pynone
  | pystr (s : String)
deriving DecidableEq

/-- `hasattr(obj, attr)`. -/
def PyAttr.present : PyAttr → Bool
  | .absent => false
  | _ => true

/-- Truthiness of the attribute value (`None` and `""` are falsy). -/
def PyAttr.truthy : PyAttr → Bool
  | .pystr s => !s.isEmpty
  | _ => false

/-- The attribute value as a `None`-or-string value (unused when absent). -/
def PyAttr.val : PyAttr → PyVal
  | .pystr s => some s
  | _ => none

/-- The attribute value as a string (only read on truthy attributes). -/
def PyAttr.str : PyAttr → String
  | .pystr s => s
  | _ => ""

/-- The concrete Telethon class of a fetched entity: `User`, `Chat`
(basic group) or `Channel` (channel / supergroup). -/
inductive EKind
  | user
  | chat
  | channel
deriving DecidableEq

/-- `type(entity).__name__`. -/
def EKind.clsName : EKind → String
  | .user => "User"
  | .chat => "Chat"
  | .channel => "Channel"

/-- A fetched Telegram entity, as the duck-typed code observes it. -/
structure PyEntity where
  id : Int
  kind : EKind
  title : PyAttr
  first_name : PyAttr
  last_name : PyAttr
  username : PyAttr
  phone : PyAttr
deriving DecidableEq

/-- `str.join`: `sep.join(parts)` from Python. -/
def pyJoin (sep : String) : List String → String
  | [] => ""
  | [x] => x
  | x :: xs => x ++ sep ++ pyJoin sep xs

/-- Python's `str.lower()` (the function names here are ASCII). -/
def pyLower (s : String) : String := String.mk (s.toList.map Char.toLower)

/-- `needle in haystack` on Python strings (substring containment). -/
def containsSub (needle haystack : String) : Bool :=
  decide (needle.toList <:+: haystack.toList)

/-- The `ERROR_PREFIXES` table of `main.py`, in insertion order. -/
def ERROR_PREFIXES : List (String × String) :=
  [("chat", "CHAT"), ("msg", "MSG"), ("contact", "CONTACT"), ("group", "GROUP"),
   ("media", "MEDIA"), ("profile", "PROFILE"), ("auth", "AUTH"), ("admin", "ADMIN")]

/-- The category derivation loop of `log_and_format_error`: the first table
keyword contained in the lowercased function name wins; otherwise "GEN". -/
def deriveCat (functionName : String) : String :=
  match ERROR_PREFIXES.find? (fun kv => containsSub kv.1 (pyLower functionName)) with
  | some kv => kv.2
  | none => "GEN"

/-- Python's `"%03d"`-style formatting of a natural number. -/
def pad3 (n : Nat) : String :=
  if n < 10 then "00" ++ toString n
  else if n < 100 then "0" ++ toString n
  else toString n

/-- `f"{prefix}-ERR-{abs(hash(function_name)) % 1000:03d}"`, with the
category taken from the explicit argument when given and derived from the
function name otherwise. -/
def errorCode (h : String → Int) (pre : Option String) (functionName : String) : String :=
  (pre.getD (deriveCat functionName)) ++ "-ERR-" ++ pad3 ((h functionName).natAbs % 1000)

/-- `log_and_format_error` of `main.py`.  The exception and the context
keyword arguments are written to the log only; the returned user-facing
string is built from the function name (and explicit category) alone. -/
def log_and_format_error (h : String → Int) (functionName : String) (error : PyExc)
    (pre : Option String) (kwargs : List (String × String)) : String :=
  "An error occurred (code: " ++ errorCode h pre functionName ++ "). Check mcp_errors.log for details."

/-- The dictionary returned by `format_entity`: `id` always present, the
other keys optional.  The `name` key can hold `None` (a `title` attribute
whose value is `None` is copied verbatim). -/
structure EntityInfo where
  id : Int
  name : Option PyVal
  etype : Option String
  username : Option String
  phone : Option String
deriving DecidableEq

/-- `format_entity` of `main.py`. -/
def format_entity (e : PyEntity) : EntityInfo :=
  if e.title.present then
    { id := e.id, name := some e.title.val,
      etype := some (if e.kind = EKind.chat then "group" else "channel"),
      username := none, phone := none }
  else if e.first_name.present then
    { id := e.id,
      name := some (some (pyJoin " "
        ((if e.first_name.truthy then [e.first_name.str] else []) ++
         (if e.last_name.present && e.last_name.truthy then [e.last_name.str] else [])))),
      etype := some "user",
      username := if e.username.present && e.username.truthy then e.username.val else none,
      phone := if e.phone.present && e.phone.truthy then e.phone.val else none }
  else
    { id := e.id, name := none, etype := none, username := none, phone := none }

/-- A remote (Telethon) call performed by a tool body, recorded in order. -/
inductive RCall
  | getDialogs
  | getEntity (chatId : Int)
  | getMessagesSlice (limit addOffset : Int)
  | getMessageById (messageId : Int)
  | getMessagesSearch (limit : Int) (searchQ : Option String)
  | sendFileRemote (path : String)
  | downloadMediaRemote (path : String)
  | leaveChannelRequest (channelId : Int)
  | deleteChatUserRequest (chatId userId : Int)
  | getMe
deriving DecidableEq

/-- Normalisation of one bound of a Python list slice `xs[lo:hi]`. -/
def pySliceIdx (len : Nat) (i : Int) : Nat :=
  if i < 0 then (max ((len : Int) + i) 0).toNat else min i.toNat len

/-- Python list slicing `xs[lo:hi]` (with clamping and negative indices). -/
def pySlice {α : Type} (xs : List α) (lo hi : Int) : List α :=
  (xs.take (pySliceIdx xs.length hi)).drop (pySliceIdx xs.length lo)

/-- A dialog as returned by `client.get_dialogs()`; the code only reads
its `.entity`. -/
structure Dialog where
  entity : PyEntity
deriving DecidableEq

/-- Environment of `get_chats`: the outcome of the one remote call. -/
structure ChatsEnv where
  dialogs : Except PyExc (List Dialog)

/-- The line printed per dialog:
`f"Chat ID: {chat_id}, Title: {title}"` with
`title = getattr(entity, "title", None) or getattr(entity, "first_name", "Unknown")`. -/
def chatLine (e : PyEntity) : String :=
  let t :=
    if e.title.present && e.title.truthy then e.title.str
    else if e.first_name.present then pyStrOf e.first_name.val
    else "Unknown"
  "Chat ID: " ++ toString e.id ++ ", Title: " ++ t

/-- The `get_chats` tool.  Returns the user-facing string together with
the trace of remote calls performed. -/
def get_chats (h : String → Int) (env : ChatsEnv) (page page_size : Int) :
    String × List RCall :=
  match env.dialogs with
  | .error e => (log_and_format_error h "get_chats" e none [], [RCall.getDialogs])
  | .ok dialogs =>
    let start := (page - 1) * page_size
    if (dialogs.length : Int) ≤ start then ("Page out of range.", [RCall.getDialogs])
    else
      (pyJoin "\n" ((pySlice dialogs start (start + page_size)).map fun d => chatLine d.entity),
       [RCall.getDialogs])

/-- A message object as the tools observe it. `dateUs` is the microsecond
position of `msg.date` on the UTC timeline; `dateRepr` is what an f-string
prints for it; `message` is `msg.message` (text or `None`). -/
structure PyMsg where
  id : Int
  dateUs : Int
  dateRepr : String
  message : PyVal
  hasMedia : Bool
  senderName : Option String
deriving DecidableEq

/-- Environment of `get_messages`: the entity lookup outcome and the chat
history (newest first, as Telethon returns it); the paged fetch
`client.get_messages(entity, limit=page_size, add_offset=offset)` is
modelled as the slice of that history. -/
structure MsgsEnv where
  entity : Except PyExc PyEntity
  history : List PyMsg

/-- The `get_messages` tool. -/
def get_messages (h : String → Int) (env : MsgsEnv) (chat_id page page_size : Int) :
    String × List RCall :=
  match env.entity with
  | .error e =>
    (log_and_format_error h "get_messages" e none
      [("chat_id", toString chat_id), ("page", toString page), ("page_size", toString page_size)],
     [RCall.getEntity chat_id])
  | .ok _ =>
    let offset := (page - 1) * page_size
    let msgs := (env.history.drop offset.toNat).take page_size.toNat
    let tr := [RCall.getEntity chat_id, RCall.getMessagesSlice page_size offset]
    if msgs.isEmpty then ("No messages found for this page.", tr)
    else
      (pyJoin "\n" (msgs.map fun m =>
        "ID: " ++ toString m.id ++ " | Date: " ++ m.dateRepr ++ " | Message: " ++ pyStrOf m.message),
       tr)

/-- The filesystem as `os.path` / `os.access` observe it before a tool's
remote calls run. -/
structure FsEnv where
  isfile : String → Bool
  accessR : String → Bool
  accessW : String → Bool

/-- Environment of `send_file`. -/
structure SendFileEnv where
  fs : FsEnv
  entity : Except PyExc PyEntity
  sendRes : Except PyExc Unit

/-- The `send_file` tool. -/
def send_file (h : String → Int) (env : SendFileEnv)
    (chat_id : Int) (file_path : String) (caption : Option String) : String × List RCall :=
  if !env.fs.isfile file_path then ("File not found: " ++ file_path, [])
  else if !env.fs.accessR file_path then ("File is not readable: " ++ file_path, [])
  else
    match env.entity with
    | .error e =>
      (log_and_format_error h "send_file" e none
        [("chat_id", toString chat_id), ("file_path", file_path),
         ("caption", pyStrOf caption)],
       [RCall.getEntity chat_id])
    | .ok _ =>
      match env.sendRes with
      | .error e =>
        (log_and_format_error h "send_file" e none
          [("chat_id", toString chat_id), ("file_path", file_path),
           ("caption", pyStrOf caption)],
         [RCall.getEntity chat_id, RCall.sendFileRemote file_path])
      | .ok _ =>
        ("File sent to chat " ++ toString chat_id ++ ".",
         [RCall.getEntity chat_id, RCall.sendFileRemote file_path])

/-- `os.path.dirname` on POSIX paths. -/
def pyDirname (p : String) : String :=
  let cs := p.toList
  let k := cs.reverse.indexOf (Char.ofNat 47)
  if k = cs.length then ""
  else
    let head := cs.take (cs.length - k)
    if head.all (fun c => c = Char.ofNat 47) then String.mk head
    else String.mk ((head.reverse.dropWhile (fun c => c = Char.ofNat 47)).reverse)

/-- `os.path.dirname(file_path) or "."` (an empty dirname is falsy). -/
def dirOrDot (p : String) : String :=
  let d := pyDirname p
  if d.isEmpty then "." else d

/-- Environment of `download_media`: entity lookup, the
`get_messages(entity, ids=message_id)` outcome (`none` models Telethon
returning `None` for an unknown id), the download outcome, and whether
the file exists at the final post-download check. -/
structure DownloadEnv where
  fs : FsEnv
  entity : Except PyExc PyEntity
  msg : Except PyExc (Option PyMsg)
  downloadRes : Except PyExc Unit
  isfileAfter : String → Bool

/-- The `download_media` tool.  Note the order of the source: the two
fetch calls run before the directory-writability check, and only the
final download call is guarded by it. -/
def download_media (h : String → Int) (env : DownloadEnv)
    (chat_id message_id : Int) (file_path : String) : String × List RCall :=
  let kw := [("chat_id", toString chat_id), ("message_id", toString message_id),
             ("file_path", file_path)]
  match env.entity with
  | .error e => (log_and_format_error h "download_media" e none kw, [RCall.getEntity chat_id])
  | .ok _ =>
    let tr0 := [RCall.getEntity chat_id, RCall.getMessageById message_id]
    match env.msg with
    | .error e => (log_and_format_error h "download_media" e none kw, tr0)
    | .ok mo =>
      match mo with
      | none => ("No media found in the specified message.", tr0)
      | some m =>
        if !m.hasMedia then ("No media found in the specified message.", tr0)
        else if !env.fs.accessW (dirOrDot file_path) then
          ("Directory not writable: " ++ dirOrDot file_path, tr0)
        else
          match env.downloadRes with
          | .error e =>
            (log_and_format_error h "download_media" e none kw,
             tr0 ++ [RCall.downloadMediaRemote file_path])
          | .ok _ =>
            if !env.isfileAfter file_path then
              ("Download failed: file not created at " ++ file_path,
               tr0 ++ [RCall.downloadMediaRemote file_path])
            else
              ("Media downloaded to " ++ file_path ++ ".",
               tr0 ++ [RCall.downloadMediaRemote file_path])

/-- Environment of `leave_chat`: entity lookup, the channel-leave call,
the `get_me(input_peer=True)` lookup, the first `DeleteChatUserRequest`,
the full `get_me()` lookup, and the second `DeleteChatUserRequest`. -/
structure LeaveEnv where
  entity : Except PyExc PyEntity
  leaveChannelRes : Except PyExc Unit
  getMeInput : Except PyExc Int
  delChatUser1 : Except PyExc Unit
  getMeFull : Except PyExc Int
  delChatUser2 : Except PyExc Unit

/-- `chat_name = getattr(entity, "title", str(chat_id))`. -/
def chatNameOf (e : PyEntity) (chat_id : Int) : String :=
  if e.title.present then pyStrOf e.title.val else toString chat_id

/-- The fallback branch of `leave_chat`'s basic-group arm: full `get_me()`
then a second `DeleteChatUserRequest`. -/
def leaveChatFallback (h : String → Int) (env : LeaveEnv) (e : PyEntity)
    (chat_id : Int) (tr : List RCall) : String × List RCall :=
  match env.getMeFull with
  | .error alt_err =>
    (log_and_format_error h "leave_chat" alt_err none [("chat_id", toString chat_id)],
     tr ++ [RCall.getMe])
  | .ok meId =>
    match env.delChatUser2 with
    | .error alt_err =>
      (log_and_format_error h "leave_chat" alt_err none [("chat_id", toString chat_id)],
       tr ++ [RCall.getMe, RCall.deleteChatUserRequest e.id meId])
    | .ok _ =>
      ("Left basic group " ++ chatNameOf e chat_id ++ " (ID: " ++ toString chat_id ++ ").",
       tr ++ [RCall.getMe, RCall.deleteChatUserRequest e.id meId])

/-- The `leave_chat` tool. -/
def leave_chat (h : String → Int) (env : LeaveEnv) (chat_id : Int) : String × List RCall :=
  match env.entity with
  | .error e =>
    let s := pyLower e.msg
    let e2 :=
      if containsSub "invalid" s && containsSub "chat" s then
        PyExc.mk "Error leaving chat: This appears to be a channel/supergroup. Please check the chat ID and try again."
      else e
    (log_and_format_error h "leave_chat" e2 none [("chat_id", toString chat_id)],
     [RCall.getEntity chat_id])
  | .ok entity =>
    match entity.kind with
    | EKind.channel =>
      match env.leaveChannelRes with
      | .ok _ =>
        ("Left channel/supergroup " ++ chatNameOf entity chat_id ++
           " (ID: " ++ toString chat_id ++ ").",
         [RCall.getEntity chat_id, RCall.leaveChannelRequest entity.id])
      | .error chan_err =>
        (log_and_format_error h "leave_chat" chan_err none [("chat_id", toString chat_id)],
         [RCall.getEntity chat_id, RCall.leaveChannelRequest entity.id])
    | EKind.chat =>
      match env.getMeInput with
      | .error _ =>
        leaveChatFallback h env entity chat_id [RCall.getEntity chat_id, RCall.getMe]
      | .ok meId =>
        match env.delChatUser1 with
        | .error _ =>
          leaveChatFallback h env entity chat_id
            [RCall.getEntity chat_id, RCall.getMe, RCall.deleteChatUserRequest entity.id meId]
        | .ok _ =>
          ("Left basic group " ++ chatNameOf entity chat_id ++
             " (ID: " ++ toString chat_id ++ ").",
           [RCall.getEntity chat_id, RCall.getMe, RCall.deleteChatUserRequest entity.id meId])
    | EKind.user =>
      (log_and_format_error h "leave_chat"
        (PyExc.mk ("Cannot leave chat ID " ++ toString chat_id ++ " of type " ++
          entity.kind.clsName ++ ". This function is for groups and channels only."))
        none [("chat_id", toString chat_id)],
       [RCall.getEntity chat_id])

/-- Microseconds per day. -/
def usPerDay : Int := 86400000000

/-- `datetime.strptime(from_date, "%Y-%m-%d")` for the calendar day `d`
(epoch-day number): midnight of `d`, on the microsecond timeline. -/
def fromDateObjOfDay (d : Int) : Int := d * usPerDay

/-- The parsed `to_date` after `+ timedelta(days=1, microseconds=-1)`:
23:59:59.999999 of day `d`, on the microsecond timeline. -/
def toDateObjOfDay (d : Int) : Int := d * usPerDay + (usPerDay - 1)

/-- The per-message keep decision of `list_messages`'s filter loop:
drop when `msg.date < from_date_obj` or `msg.date > to_date_obj`. -/
def msgKeep (fromObj toObj : Option Int) (dateUs : Int) : Bool :=
  (match fromObj with
   | some f => !decide (dateUs < f)
   | none => true) &&
  (match toObj with
   | some t => !decide (t < dateUs)
   | none => true)

/-- The date-filter pass of `list_messages` (applied only when at least
one bound was given). -/
def applyDateFilter (fromObj toObj : Option Int) (msgs : List PyMsg) : List PyMsg :=
  if fromObj.isSome || toObj.isSome then
    msgs.filter (fun m => msgKeep fromObj toObj m.dateUs)
  else msgs

/-- `msg.date` falls on calendar day `d` (UTC). -/
def onDay (dateUs d : Int) : Prop :=
  d * usPerDay ≤ dateUs ∧ dateUs < (d + 1) * usPerDay

/-- Environment of `list_messages`: the entity lookup and the (already
search-filtered) remote fetch for a given search query. -/
structure ListMsgsEnv where
  entity : Except PyExc PyEntity
  fetched : Option String → List PyMsg

/-- One output line of `list_messages`. -/
def listMsgLine (m : PyMsg) : String :=
  let sender :=
    match m.senderName with
    | some n => n ++ " | "
    | none => ""
  "ID: " ++ toString m.id ++ " | " ++ sender ++ "Date: " ++ m.dateRepr ++
    " | Message: " ++ (if pyTruthy m.message then pyStrOf m.message else "[Media/No text]")

/-- The `list_messages` tool.  The two date arguments stand for already
validated `YYYY-MM-DD` strings, each denoting its calendar day number;
`strptime` maps such a string to midnight of that day and the `to_date`
bound is then shifted to the end of the day, exactly as in the source. -/
def list_messages (h : String → Int) (env : ListMsgsEnv) (chat_id limit : Int)
    (search_query : Option String) (fromDay toDay : Option Int) : String × List RCall :=
  match env.entity with
  | .error e =>
    (log_and_format_error h "list_messages" e none [("chat_id", toString chat_id)],
     [RCall.getEntity chat_id])
  | .ok _ =>
    let tr := [RCall.getEntity chat_id, RCall.getMessagesSearch limit search_query]
    let msgs := applyDateFilter (fromDay.map fromDateObjOfDay) (toDay.map toDateObjOfDay)
      (env.fetched search_query)
    if msgs.isEmpty then ("No messages found matching the criteria.", tr)
    else (pyJoin "\n" (msgs.map listMsgLine), tr)

set_option maxRecDepth 40000

/-- Helper: the derived category is "GEN" exactly when no table keyword
occurs in the lowercased function name. -/
theorem deriveCat_gen_iff (name : String) :
    deriveCat name = "GEN" ↔
      ∀ kv ∈ ERROR_PREFIXES, containsSub kv.1 (pyLower name) = false := by
  unfold deriveCat
  cases heq : ERROR_PREFIXES.find? (fun kv => containsSub kv.1 (pyLower name)) with
  | none =>
    constructor
    · intro _ kv hmem
      have hx := List.find?_eq_none.mp heq kv hmem
      simpa using hx
    · intro _
      rfl
  | some kv =>
    constructor
    · intro hgen
      exfalso
      have hmem := List.mem_of_find?_eq_some heq
      simp only [ERROR_PREFIXES, List.mem_cons, List.not_mem_nil, or_false] at hmem
      rcases hmem with hkv | hkv | hkv | hkv | hkv | hkv | hkv | hkv <;>
        (subst hkv; exact absurd hgen (by decide))
    · intro hall
      exfalso
      have hp := List.find?_some heq
      have hmem := List.mem_of_find?_eq_some heq
      have hfalse := hall kv hmem
      simp only [hfalse] at hp
      exact Bool.false_ne_true hp

/-- Helper: when a keyword matches, the derived category is the table
value of a keyword contained in the lowercased function name. -/
theorem deriveCat_table_hit (name : String) (hne : deriveCat name ≠ "GEN") :
    ∃ kv ∈ ERROR_PREFIXES,
      containsSub kv.1 (pyLower name) = true ∧ deriveCat name = kv.2 := by
  unfold deriveCat at hne ⊢
  cases heq : ERROR_PREFIXES.find? (fun kv => containsSub kv.1 (pyLower name)) with
  | none =>
    rw [heq] at hne
    exact absurd rfl hne
  | some kv =>
    refine ⟨kv, List.mem_of_find?_eq_some heq, ?_, ?_⟩
    · have hp := List.find?_some heq
      simpa using hp
    · rfl

/-- Helper: the zero-padded code is always exactly three decimal digits. -/
theorem pad3_len : ∀ m : Nat, m < 1000 → (pad3 m).length = 3 := by decide

/-- C8: with no explicit category, the category of the returned string is
the fixed-table value of a keyword contained in the lowercased function
name — the generic "GEN" exactly when no table keyword occurs — and the
numeric code is the function-name hash reduced modulo 1000 and printed as
three decimal digits. -/
theorem c8_category_and_code (h : String → Int) (name : String)
    (e : PyExc) (kw : List (String × String)) :
    log_and_format_error h name e none kw =
      "An error occurred (code: " ++
        (deriveCat name ++ "-ERR-" ++ pad3 ((h name).natAbs % 1000)) ++
        "). Check mcp_errors.log for details." ∧
    (deriveCat name = "GEN" ↔
      ∀ kv ∈ ERROR_PREFIXES, containsSub kv.1 (pyLower name) = false) ∧
    (deriveCat name ≠ "GEN" →
      ∃ kv ∈ ERROR_PREFIXES,
        containsSub kv.1 (pyLower name) = true ∧ deriveCat name = kv.2) ∧
    (h name).natAbs % 1000 < 1000 ∧
    ((pad3 ((h name).natAbs % 1000)).length = 3) := by
  refine ⟨rfl, deriveCat_gen_iff name, deriveCat_table_hit name, ?_, ?_⟩
  · exact Nat.mod_lt _ (by norm_num)
  · exact pad3_len _ (Nat.mod_lt _ (by norm_num))

/-- C3: two error-normalizer calls with the same function name and
different exceptions (and different context parameters) return identical
user-facing strings, hence identical category and numeric code. -/
theorem c3_same_name_same_code (h : String → Int) (name : String)
    (e1 e2 : PyExc) (kw1 kw2 : List (String × String))
    (hne : e1 ≠ e2) (hkw : kw1 ≠ kw2) :
    log_and_format_error h name e1 none kw1 = log_and_format_error h name e2 none kw2 := rfl

/-- C3 witness. -/
theorem c3_same_name_same_code_witness :
    log_and_format_error (fun _ => 0) "get_chats" (PyExc.mk "FloodWait") none [] =
      log_and_format_error (fun _ => 0) "get_chats" (PyExc.mk "RPCError") none [("page", "2")] :=
  c3_same_name_same_code (fun _ => 0) "get_chats" (PyExc.mk "FloodWait") (PyExc.mk "RPCError")
    [] [("page", "2")] (by decide) (by decide)

/-- C9: the user-facing string of the error normalizer is identical
across any two calls that agree on the function name and explicit
category: it depends on neither the exception nor the context keyword
arguments, so no part of either can appear in it. -/
theorem c9_error_string_noninterference (h : String → Int) (name : String)
    (pre : Option String) (e1 e2 : PyExc) (kw1 kw2 : List (String × String)) :
    log_and_format_error h name e1 pre kw1 = log_and_format_error h name e2 pre kw2 := rfl

/-- C1: the tools never propagate a raised exception — their Lean
embeddings are total functions into `String × List RCall` — and every
raise site of every embedded tool body is converted at the tool boundary
into the formatted error string of `log_and_format_error`.  Each conjunct
exercises one raise site of one tool with an arbitrary exception. -/
theorem c1_exceptions_become_error_strings (h : String → Int) (e : PyExc) :
    (∀ page page_size,
      (get_chats h ⟨Except.error e⟩ page page_size).1 =
        log_and_format_error h "get_chats" e none []) ∧
    (∀ hist chat_id page page_size,
      (get_messages h ⟨Except.error e, hist⟩ chat_id page page_size).1 =
        log_and_format_error h "get_messages" e none
          [("chat_id", toString chat_id), ("page", toString page),
           ("page_size", toString page_size)]) ∧
    (∀ fetched chat_id limit q fromDay toDay,
      (list_messages h ⟨Except.error e, fetched⟩ chat_id limit q fromDay toDay).1 =
        log_and_format_error h "list_messages" e none [("chat_id", toString chat_id)]) ∧
    (∀ aW sr chat_id path caption,
      (send_file h ⟨⟨fun _ => true, fun _ => true, aW⟩, Except.error e, sr⟩
          chat_id path caption).1 =
        log_and_format_error h "send_file" e none
          [("chat_id", toString chat_id), ("file_path", path), ("caption", pyStrOf caption)]) ∧
    (∀ aW ent chat_id path caption,
      (send_file h ⟨⟨fun _ => true, fun _ => true, aW⟩, Except.ok ent, Except.error e⟩
          chat_id path caption).1 =
        log_and_format_error h "send_file" e none
          [("chat_id", toString chat_id), ("file_path", path), ("caption", pyStrOf caption)]) ∧
    (∀ fs msgR dlR ia chat_id message_id path,
      (download_media h ⟨fs, Except.error e, msgR, dlR, ia⟩ chat_id message_id path).1 =
        log_and_format_error h "download_media" e none
          [("chat_id", toString chat_id), ("message_id", toString message_id),
           ("file_path", path)]) ∧
    (∀ fs ent dlR ia chat_id message_id path,
      (download_media h ⟨fs, Except.ok ent, Except.error e, dlR, ia⟩ chat_id message_id path).1 =
        log_and_format_error h "download_media" e none
          [("chat_id", toString chat_id), ("message_id", toString message_id),
           ("file_path", path)]) ∧
    (∀ (aR : String → Bool) (ent : PyEntity) (m0 : PyMsg) ia chat_id message_id path,
      (download_media h ⟨⟨fun _ => true, aR, fun _ => true⟩, Except.ok ent,
          Except.ok (some { m0 with hasMedia := true }), Except.error e, ia⟩
          chat_id message_id path).1 =
        log_and_format_error h "download_media" e none
          [("chat_id", toString chat_id), ("message_id", toString message_id),
           ("file_path", path)]) ∧
    (∀ lc gmi d1 gmf d2 chat_id,
      (leave_chat h ⟨Except.error e, lc, gmi, d1, gmf, d2⟩ chat_id).1 =
        log_and_format_error h "leave_chat" e none [("chat_id", toString chat_id)]) ∧
    (∀ (ent0 : PyEntity) gmi d1 gmf d2 chat_id,
      (leave_chat h ⟨Except.ok { ent0 with kind := EKind.channel }, Except.error e,
          gmi, d1, gmf, d2⟩ chat_id).1 =
        log_and_format_error h "leave_chat" e none [("chat_id", toString chat_id)]) ∧
    (∀ (ent0 : PyEntity) lc d1 d2 chat_id,
      (leave_chat h ⟨Except.ok { ent0 with kind := EKind.chat }, lc, Except.error e,
          d1, Except.error e, d2⟩ chat_id).1 =
        log_and_format_error h "leave_chat" e none [("chat_id", toString chat_id)]) ∧
    (∀ (ent0 : PyEntity) lc gmi meId chat_id,
      (leave_chat h ⟨Except.ok { ent0 with kind := EKind.chat }, lc, gmi,
          Except.error e, Except.ok meId, Except.error e⟩ chat_id).1 =
        log_and_format_error h "leave_chat" e none [("chat_id", toString chat_id)]) := by
  refine ⟨?_, ?_, ?_, ?_, ?_, ?_, ?_, ?_, ?_, ?_, ?_, ?_⟩ <;> intros <;> try rfl
  rename_i ent0 lc gmi meId chat_id
  cases gmi with
  | error e2 => rfl
  | ok meId2 => rfl

/-- A concrete user entity used by the concrete-input theorems. -/
def userEnt0 : PyEntity :=
  ⟨7, EKind.user, PyAttr.absent, PyAttr.pystr "Alice", PyAttr.absent,
   PyAttr.absent, PyAttr.absent⟩

/-- A `get_messages` environment whose chat holds no messages at all. -/
def msgsEnvNoHistory : MsgsEnv := ⟨Except.ok userEnt0, []⟩

/-- C2 counterexample: at page 2, page size 5, over a chat with 0
messages — so `(p-1)*s = 5` exceeds the total — `get_messages` does not
return the "Page out of range" sentinel: it returns
"No messages found for this page.". -/
theorem c2_counterexample :
    (1 ≤ (2 : Int) ∧ 0 < (5 : Int) ∧ (0 : Int) < (2 - 1) * 5) ∧
    (get_messages (fun _ => 0) msgsEnvNoHistory 1 2 5).1 = "No messages found for this page." ∧
    (get_messages (fun _ => 0) msgsEnvNoHistory 1 2 5).1 ≠ "Page out of range" ∧
    (get_messages (fun _ => 0) msgsEnvNoHistory 1 2 5).1 ≠ "Page out of range." := by
  exact ⟨by decide, rfl, by decide, by decide⟩

/-- C2 (amended): for page `p ≥ 1` and size `s > 0` with `(p-1)*s` past
the total item count, `get_chats` returns the literal
"Page out of range." sentinel; `get_messages`, whose out-of-range offset
makes the remote fetch come back empty, instead returns the distinct
non-success string "No messages found for this page." — neither tool
ever returns an empty-but-success-shaped listing there. -/
theorem c2_pagination_out_of_range (h : String → Int) (dialogs : List Dialog)
    (ent : PyEntity) (hist : List PyMsg) (chat_id p s : Int)
    (hp : 1 ≤ p) (hs : 0 < s)
    (hd : (dialogs.length : Int) < (p - 1) * s)
    (hh : (hist.length : Int) < (p - 1) * s) :
    (get_chats h ⟨Except.ok dialogs⟩ p s).1 = "Page out of range." ∧
    (get_messages h ⟨Except.ok ent, hist⟩ chat_id p s).1 = "No messages found for this page." := by
  constructor
  · have hle : (dialogs.length : Int) ≤ (p - 1) * s := le_of_lt hd
    simp [get_chats, hle]
  · have hofs : hist.length ≤ ((p - 1) * s).toNat := by omega
    have hdrop : hist.drop ((p - 1) * s).toNat = [] := List.drop_eq_nil_of_le hofs
    simp [get_messages, hdrop]

/-- C2 witness: both amended conclusions at concrete inputs. -/
theorem c2_pagination_out_of_range_witness :
    (get_chats (fun _ => 0) ⟨Except.ok []⟩ 2 3).1 = "Page out of range." ∧
    (get_messages (fun _ => 0) ⟨Except.ok userEnt0, []⟩ 9 2 3).1 =
      "No messages found for this page." :=
  c2_pagination_out_of_range (fun _ => 0) [] userEnt0 [] 9 2 3
    (by decide) (by decide) (by decide) (by decide)

/-- C4: the end bound of `list_messages`'s date filter is shifted to
23:59:59.999999 of `to_date`'s day (one microsecond before the next
midnight); a message anywhere on `from_date`'s day is kept, a message
anywhere on `to_date`'s day is kept, and a message on the day after
`to_date` is dropped. -/
theorem c4_date_filter_whole_days (df dt : Int) (m : PyMsg) (msgs : List PyMsg)
    (hdays : df ≤ dt) (hmem : m ∈ msgs) :
    toDateObjOfDay dt = fromDateObjOfDay (dt + 1) - 1 ∧
    (onDay m.dateUs df →
      m ∈ applyDateFilter (some (fromDateObjOfDay df)) (some (toDateObjOfDay dt)) msgs) ∧
    (onDay m.dateUs dt →
      m ∈ applyDateFilter (some (fromDateObjOfDay df)) (some (toDateObjOfDay dt)) msgs) ∧
    (onDay m.dateUs (dt + 1) →
      m ∉ applyDateFilter (some (fromDateObjOfDay df)) (some (toDateObjOfDay dt)) msgs) := by
  refine ⟨?_, ?_, ?_, ?_⟩
  · simp only [toDateObjOfDay, fromDateObjOfDay, usPerDay]
    ring
  all_goals
    intro hd
    simp only [onDay, usPerDay] at hd
    simp only [applyDateFilter, Option.isSome_some, Bool.or_self, if_true,
      List.mem_filter, msgKeep, fromDateObjOfDay, toDateObjOfDay, usPerDay,
      Bool.and_eq_true, Bool.not_eq_true', decide_eq_false_iff_not, not_lt]
  · exact ⟨hmem, by omega, by omega⟩
  · exact ⟨hmem, by omega, by omega⟩
  · rintro ⟨-, h1, h2⟩
    omega

/-- A message timestamped at the last microsecond of epoch day 1. -/
def dayEndMsg0 : PyMsg :=
  ⟨1, 2 * 86400000000 - 1, "1970-01-02 23:59:59.999999+00:00", some "hello", false, none⟩

/-- C4 witness at `from_date` = day 0, `to_date` = day 1. -/
theorem c4_date_filter_whole_days_witness :
    toDateObjOfDay 1 = fromDateObjOfDay (1 + 1) - 1 ∧
    (onDay dayEndMsg0.dateUs 0 →
      dayEndMsg0 ∈ applyDateFilter (some (fromDateObjOfDay 0)) (some (toDateObjOfDay 1))
        [dayEndMsg0]) ∧
    (onDay dayEndMsg0.dateUs 1 →
      dayEndMsg0 ∈ applyDateFilter (some (fromDateObjOfDay 0)) (some (toDateObjOfDay 1))
        [dayEndMsg0]) ∧
    (onDay dayEndMsg0.dateUs (1 + 1) →
      dayEndMsg0 ∉ applyDateFilter (some (fromDateObjOfDay 0)) (some (toDateObjOfDay 1))
        [dayEndMsg0]) :=
  c4_date_filter_whole_days 0 1 dayEndMsg0 [dayEndMsg0] (by decide) (by decide)

/-- A message that carries media, for the file-tool theorems. -/
def mediaMsg0 : PyMsg := ⟨3, 0, "1970-01-01 00:00:00+00:00", none, true, none⟩

/-- A `download_media` environment: entity and message fetch succeed, but
the target directory is not writable. -/
def dlEnvNoWrite : DownloadEnv :=
  ⟨⟨fun _ => true, fun _ => true, fun _ => false⟩, Except.ok userEnt0,
   Except.ok (some mediaMsg0), Except.ok (), fun _ => true⟩

/-- C5 counterexample: with an unwritable target directory,
`download_media` performs two remote calls (entity lookup and message
fetch) before its permission check, so the check does not precede every
remote call as claimed. -/
theorem c5_counterexample :
    (download_media (fun _ => 0) dlEnvNoWrite 1 2 "/tmp/out.bin").1 =
      "Directory not writable: /tmp" ∧
    (download_media (fun _ => 0) dlEnvNoWrite 1 2 "/tmp/out.bin").2 =
      [RCall.getEntity 1, RCall.getMessageById 2] ∧
    (download_media (fun _ => 0) dlEnvNoWrite 1 2 "/tmp/out.bin").2 ≠ [] := by
  exact ⟨rfl, rfl, by decide⟩

/-- C5 (amended): `send_file` pre-checks existence then readability and
returns the descriptive error with no remote call at all; `download_media`
resolves the entity and fetches the message first (two remote calls) and
checks directory writability only before the download call itself,
returning the descriptive error then. -/
theorem c5_file_precheck_order (h : String → Int)
    (fs1 fs2 : FsEnv) (er1 er2 : Except PyExc PyEntity) (sr1 sr2 : Except PyExc Unit)
    (denv : DownloadEnv) (ent : PyEntity) (m : PyMsg)
    (chat_id message_id : Int) (path : String) (caption : Option String)
    (h1 : fs1.isfile path = false)
    (h2 : fs2.isfile path = true) (h3 : fs2.accessR path = false)
    (h4 : denv.entity = Except.ok ent) (h5 : denv.msg = Except.ok (some m))
    (h6 : m.hasMedia = true) (h7 : denv.fs.accessW (dirOrDot path) = false) :
    send_file h ⟨fs1, er1, sr1⟩ chat_id path caption = ("File not found: " ++ path, []) ∧
    send_file h ⟨fs2, er2, sr2⟩ chat_id path caption = ("File is not readable: " ++ path, []) ∧
    download_media h denv chat_id message_id path =
      ("Directory not writable: " ++ dirOrDot path,
       [RCall.getEntity chat_id, RCall.getMessageById message_id]) := by
  refine ⟨?_, ?_, ?_⟩
  · simp [send_file, h1]
  · simp [send_file, h2, h3]
  · simp [download_media, h4, h5, h6, h7]

/-- C5 witness: both prechecks and the download ordering, concretely. -/
theorem c5_file_precheck_order_witness :
    send_file (fun _ => 0)
        ⟨⟨fun _ => false, fun _ => true, fun _ => true⟩, Except.ok userEnt0, Except.ok ()⟩
        1 "/tmp/a.txt" none = ("File not found: " ++ "/tmp/a.txt", []) ∧
    send_file (fun _ => 0)
        ⟨⟨fun _ => true, fun _ => false, fun _ => true⟩, Except.ok userEnt0, Except.ok ()⟩
        1 "/tmp/a.txt" none = ("File is not readable: " ++ "/tmp/a.txt", []) ∧
    download_media (fun _ => 0) dlEnvNoWrite 1 2 "/tmp/a.txt" =
      ("Directory not writable: " ++ dirOrDot "/tmp/a.txt",
       [RCall.getEntity 1, RCall.getMessageById 2]) :=
  c5_file_precheck_order (fun _ => 0)
    ⟨fun _ => false, fun _ => true, fun _ => true⟩
    ⟨fun _ => true, fun _ => false, fun _ => true⟩
    (Except.ok userEnt0) (Except.ok userEnt0) (Except.ok ()) (Except.ok ())
    dlEnvNoWrite userEnt0 mediaMsg0 1 2 "/tmp/a.txt" none
    rfl rfl rfl rfl rfl rfl rfl

/-- Is this remote call the channel-specific leave request? -/
def RCall.isChannelLeave : RCall → Bool
  | .leaveChannelRequest _ => true
  | _ => false

/-- Is this remote call the basic-group-specific leave request? -/
def RCall.isBasicLeave : RCall → Bool
  | .deleteChatUserRequest _ _ => true
  | _ => false

/-- A `leave_chat` environment that resolves to a plain user. -/
def leaveEnvUser : LeaveEnv :=
  ⟨Except.ok userEnt0, Except.ok (), Except.ok 1, Except.ok (), Except.ok 1, Except.ok ()⟩

/-- C6 counterexample: on a plain-user identifier the string returned to
the caller is the generic coded error message; the "Cannot leave ..."
text exists only in the logged exception, so the tool does not return an
explicit "cannot leave" error. -/
theorem c6_counterexample :
    (leave_chat (fun _ => 0) leaveEnvUser 7).1 =
      "An error occurred (code: CHAT-ERR-000). Check mcp_errors.log for details." ∧
    containsSub "annot leave" (leave_chat (fun _ => 0) leaveEnvUser 7).1 = false := by
  exact ⟨by decide, by decide⟩

/-- C6 (amended): on a channel or supergroup `leave_chat` issues exactly
the channel-specific `LeaveChannelRequest`; on a basic group every leave
call it issues is a `DeleteChatUserRequest` (and one is issued as soon as
the own-user lookup succeeds); on a plain user it issues no leave call at
all and returns the generic coded error string built from a logged
"Cannot leave ..." exception. -/
theorem c6_leave_dispatch (h : String → Int) (env : LeaveEnv) (ent : PyEntity)
    (chat_id meId : Int) (hent : env.entity = Except.ok ent) :
    (ent.kind = EKind.channel →
      (leave_chat h env chat_id).2 =
        [RCall.getEntity chat_id, RCall.leaveChannelRequest ent.id]) ∧
    (ent.kind = EKind.chat →
      (∀ c ∈ (leave_chat h env chat_id).2, c.isChannelLeave = false) ∧
      (env.getMeInput = Except.ok meId →
        RCall.deleteChatUserRequest ent.id meId ∈ (leave_chat h env chat_id).2)) ∧
    (ent.kind = EKind.user →
      (leave_chat h env chat_id).2 = [RCall.getEntity chat_id] ∧
      (leave_chat h env chat_id).1 =
        log_and_format_error h "leave_chat"
          (PyExc.mk ("Cannot leave chat ID " ++ toString chat_id ++
            " of type User. This function is for groups and channels only."))
          none [("chat_id", toString chat_id)]) := by
  refine ⟨?_, ?_, ?_⟩
  · intro hk
    cases hlc : env.leaveChannelRes with
    | ok u => simp [leave_chat, hent, hk, hlc]
    | error er => simp [leave_chat, hent, hk, hlc]
  · intro hk
    have htr : ∃ tail : List RCall,
        (leave_chat h env chat_id).2 = RCall.getEntity chat_id :: RCall.getMe :: tail ∧
        (∀ c ∈ tail, c.isChannelLeave = false) ∧
        (∀ mi, env.getMeInput = Except.ok mi →
          RCall.deleteChatUserRequest ent.id mi ∈ tail) := by
      cases hgmi : env.getMeInput with
      | error er =>
        cases hgmf : env.getMeFull with
        | error e2 =>
          refine ⟨[RCall.getMe], ?_, ?_, ?_⟩
          · simp [leave_chat, hent, hk, hgmi, leaveChatFallback, hgmf]
          · intro c hc
            simp only [List.mem_singleton] at hc
            subst hc
            rfl
          · intro mi hmi
            exact absurd hmi (by simp)
        | ok mf =>
          refine ⟨[RCall.getMe, RCall.deleteChatUserRequest ent.id mf], ?_, ?_, ?_⟩
          · cases hd2 : env.delChatUser2 with
            | error e3 => simp [leave_chat, hent, hk, hgmi, leaveChatFallback, hgmf, hd2]
            | ok u => simp [leave_chat, hent, hk, hgmi, leaveChatFallback, hgmf, hd2]
          · intro c hc
            simp only [List.mem_cons, List.mem_singleton, List.not_mem_nil, or_false] at hc
            rcases hc with hc | hc <;> subst hc <;> rfl
          · intro mi hmi
            exact absurd hmi (by simp)
      | ok mi =>
        cases hd1 : env.delChatUser1 with
        | ok u =>
          refine ⟨[RCall.deleteChatUserRequest ent.id mi], ?_, ?_, ?_⟩
          · simp [leave_chat, hent, hk, hgmi, hd1]
          · intro c hc
            simp only [List.mem_singleton] at hc
            subst hc
            rfl
          · intro mi2 hmi2
            have hx : mi = mi2 := Except.ok.inj hmi2
            subst hx
            simp
        | error e2 =>
          cases hgmf : env.getMeFull with
          | error e3 =>
            refine ⟨[RCall.deleteChatUserRequest ent.id mi, RCall.getMe], ?_, ?_, ?_⟩
            · simp [leave_chat, hent, hk, hgmi, hd1, leaveChatFallback, hgmf]
            · intro c hc
              simp only [List.mem_cons, List.mem_singleton, List.not_mem_nil, or_false] at hc
              rcases hc with hc | hc <;> subst hc <;> rfl
            · intro mi2 hmi2
              have hx : mi = mi2 := Except.ok.inj hmi2
              subst hx
              simp
          | ok mf =>
            refine ⟨[RCall.deleteChatUserRequest ent.id mi, RCall.getMe,
                RCall.deleteChatUserRequest ent.id mf], ?_, ?_, ?_⟩
            · cases hd2 : env.delChatUser2 with
              | error e3 =>
                simp [leave_chat, hent, hk, hgmi, hd1, leaveChatFallback, hgmf, hd2]
              | ok u =>
                simp [leave_chat, hent, hk, hgmi, hd1, leaveChatFallback, hgmf, hd2]
            · intro c hc
              simp only [List.mem_cons, List.mem_singleton, List.not_mem_nil, or_false] at hc
              rcases hc with hc | hc | hc <;> subst hc <;> rfl
            · intro mi2 hmi2
              have hx : mi = mi2 := Except.ok.inj hmi2
              subst hx
              simp
    obtain ⟨tail, heq, hall, hdel⟩ := htr
    constructor
    · intro c hc
      rw [heq] at hc
      simp only [List.mem_cons] at hc
      rcases hc with hc | hc | hc
      · subst hc; rfl
      · subst hc; rfl
      · exact hall c hc
    · intro hok
      rw [heq]
      simp only [List.mem_cons]
      exact Or.inr (Or.inr (hdel meId hok))
  · intro hk
    constructor
    · simp [leave_chat, hent, hk]
    · simp [leave_chat, hent, hk, log_and_format_error]

/-- A concrete basic-group entity. -/
def groupEnt0 : PyEntity :=
  ⟨100, EKind.chat, PyAttr.pystr "Team", PyAttr.absent, PyAttr.absent,
   PyAttr.absent, PyAttr.absent⟩

/-- A `leave_chat` environment resolving to the basic group above. -/
def leaveEnvChat : LeaveEnv :=
  ⟨Except.ok groupEnt0, Except.ok (), Except.ok 5, Except.ok (), Except.ok 5, Except.ok ()⟩

/-- C6 witness: the dispatch conclusions at a concrete basic-group run. -/
theorem c6_leave_dispatch_witness :
    (groupEnt0.kind = EKind.channel →
      (leave_chat (fun _ => 0) leaveEnvChat 100).2 =
        [RCall.getEntity 100, RCall.leaveChannelRequest groupEnt0.id]) ∧
    (groupEnt0.kind = EKind.chat →
      (∀ c ∈ (leave_chat (fun _ => 0) leaveEnvChat 100).2, c.isChannelLeave = false) ∧
      (leaveEnvChat.getMeInput = Except.ok 5 →
        RCall.deleteChatUserRequest groupEnt0.id 5 ∈
          (leave_chat (fun _ => 0) leaveEnvChat 100).2)) ∧
    (groupEnt0.kind = EKind.user →
      (leave_chat (fun _ => 0) leaveEnvChat 100).2 = [RCall.getEntity 100] ∧
      (leave_chat (fun _ => 0) leaveEnvChat 100).1 =
        log_and_format_error (fun _ => 0) "leave_chat"
          (PyExc.mk ("Cannot leave chat ID " ++ toString (100 : Int) ++
            " of type User. This function is for groups and channels only."))
          none [("chat_id", toString (100 : Int))]) :=
  c6_leave_dispatch (fun _ => 0) leaveEnvChat groupEnt0 100 5 rfl

/-- C7: on a user-shaped entity (a `first_name` attribute and no `title`)
`format_entity` yields type "user" and a name that joins the first and
last names, dropping the falsy parts; on a title-bearing entity it yields
type "group" for a basic group (`Chat`) and "channel" otherwise. -/
theorem c7_format_entity_shapes (e1 e2 : PyEntity)
    (h1 : e1.title.present = false) (h2 : e1.first_name.present = true)
    (h3 : e2.title.present = true) :
    (format_entity e1).etype = some "user" ∧
    (format_entity e1).name = some (some (
      if e1.first_name.truthy && (e1.last_name.present && e1.last_name.truthy) then
        e1.first_name.str ++ " " ++ e1.last_name.str
      else if e1.first_name.truthy then e1.first_name.str
      else if e1.last_name.present && e1.last_name.truthy then e1.last_name.str
      else "")) ∧
    (e2.kind = EKind.chat → (format_entity e2).etype = some "group") ∧
    (e2.kind ≠ EKind.chat → (format_entity e2).etype = some "channel") := by
  refine ⟨?_, ?_, ?_, ?_⟩
  · simp [format_entity, h1, h2]
  · cases hf : e1.first_name.truthy <;>
      cases hl : (e1.last_name.present && e1.last_name.truthy) <;>
      simp [format_entity, h1, h2, hf, hl, pyJoin]
  · intro hk
    simp [format_entity, h3, hk]
  · intro hk
    simp [format_entity, h3, hk]

/-- A concrete user entity with first and last name. -/
def userEntAda : PyEntity :=
  ⟨1, EKind.user, PyAttr.absent, PyAttr.pystr "Ada", PyAttr.pystr "Lovelace",
   PyAttr.pystr "ada", PyAttr.pynone⟩

/-- C7 witness: the shape conclusions at concrete entities. -/
theorem c7_format_entity_shapes_witness :
    (format_entity userEntAda).etype = some "user" ∧
    (format_entity userEntAda).name = some (some (
      if userEntAda.first_name.truthy &&
          (userEntAda.last_name.present && userEntAda.last_name.truthy) then
        userEntAda.first_name.str ++ " " ++ userEntAda.last_name.str
      else if userEntAda.first_name.truthy then userEntAda.first_name.str
      else if userEntAda.last_name.present && userEntAda.last_name.truthy then
        userEntAda.last_name.str
      else "")) ∧
    (groupEnt0.kind = EKind.chat → (format_entity groupEnt0).etype = some "group") ∧
    (groupEnt0.kind ≠ EKind.chat → (format_entity groupEnt0).etype = some "channel") :=
  c7_format_entity_shapes userEntAda groupEnt0 (by decide) (by decide) (by decide)

/-- C10: an entity with neither a `title` nor a `first_name` attribute is
formatted as the bare-id record: no name, type, username or phone field. -/
theorem c10_format_entity_bare (e : PyEntity)
    (h1 : e.title.present = false) (h2 : e.first_name.present = false) :
    format_entity e =
      { id := e.id, name := none, etype := none, username := none, phone := none } := by
  simp [format_entity, h1, h2]

/-- A concrete entity carrying neither `title` nor `first_name`. -/
def bareEnt0 : PyEntity :=
  ⟨42, EKind.user, PyAttr.absent, PyAttr.absent, PyAttr.pystr "x",
   PyAttr.pystr "y", PyAttr.pystr "z"⟩

/-- C10 witness. -/
theorem c10_format_entity_bare_witness :
    format_entity bareEnt0 =
      { id := bareEnt0.id, name := none, etype := none, username := none, phone := none } :=
  c10_format_entity_bare bareEnt0 (by decide) (by decide)

/-- C8 witness at the concrete function name "send_file" (which contains
no table keyword, so its category is the generic "GEN"). -/
theorem c8_category_and_code_witness :
    log_and_format_error (fun _ => 0) "send_file" (PyExc.mk "boom") none [] =
      "An error occurred (code: " ++
        (deriveCat "send_file" ++ "-ERR-" ++
          pad3 ((((fun _ => 0) : String → Int) "send_file").natAbs % 1000)) ++
        "). Check mcp_errors.log for details." ∧
    (deriveCat "send_file" = "GEN" ↔
      ∀ kv ∈ ERROR_PREFIXES, containsSub kv.1 (pyLower "send_file") = false) ∧
    (deriveCat "send_file" ≠ "GEN" →
      ∃ kv ∈ ERROR_PREFIXES,
        containsSub kv.1 (pyLower "send_file") = true ∧ deriveCat "send_file" = kv.2) ∧
    (((fun _ => 0) : String → Int) "send_file").natAbs % 1000 < 1000 ∧
    ((pad3 ((((fun _ => 0) : String → Int) "send_file").natAbs % 1000)).length = 3) :=
  c8_category_and_code (fun _ => 0) "send_file" (PyExc.mk "boom") []
